import Mathlib

/-!
Verification development for the search-engine repository (Go).

The embedding is shallow: each Go function relevant to the claims is
translated into an executable Lean definition.  Conventions used
throughout:

* `float64` arithmetic is modelled with exact rationals (`ℚ`); all the
  concrete values appearing in the claims (1.5, 112.5, 0.5, 118.0, 273.0,
  ...) are exactly representable in binary64, so the rational model agrees
  with the Go computation on them.
* `time.Time` instants and `time.Duration` values are modelled as `Int`
  nanoseconds (Go stores durations as int64 nanoseconds).  `time.Now()`
  becomes an explicit `now : Int` parameter.  Go's conversion
  `int(d.Hours() / 24)` truncates toward zero, rendered as `Int.tdiv` by
  the nanoseconds-per-day constant.
* Go `nil`-able pointers (`*int`) become `Option Int`.
* The SQL store is modelled as a list of rows; fallible repository
  operations return `Except String`.
-/

namespace SearchEngine

/-- Nanoseconds in one day (`24 * time.Hour`). -/
def nsPerDay : Int := 86400000000000

/-- Nanoseconds in one minute (`time.Minute`). -/
def nsPerMinute : Int := 60000000000

/-! ## model/content.go -/

/-- Go's `model.ContentType` is a string type; arbitrary strings inhabit it. -/
abbrev ContentType := String

/-- `model.ContentTypeVideo`. -/
def ContentTypeVideo : ContentType := "video"

/-- `model.ContentTypeArticle`. -/
def ContentTypeArticle : ContentType := "article"

/-- `model.Content`: the unified content row (content.go).  Timestamps are
`Int` nanosecond instants; the zero value 0 plays the role of Go's zero
`time.Time` (`IsZero`). -/
structure Content where
  id : Int
  providerID : Int
  externalID : String
  title : String
  type : ContentType
  views : Int
  likes : Int
  durationSeconds : Option Int
  readingTime : Option Int
  reactions : Int
  comments : Int
  publishedAt : Int
  score : ℚ
  createdAt : Int
  updatedAt : Int
deriving DecidableEq

/-- `Content.IsVideo` (content.go). -/
def Content.IsVideo (c : Content) : Bool := c.type == ContentTypeVideo

/-- `Content.IsArticle` (content.go). -/
def Content.IsArticle (c : Content) : Bool := c.type == ContentTypeArticle

/-! ## scoring/base_score.go -/

/-- `scoring.calculateVideoBaseScore`: `views/1000 + likes/100`. -/
def calculateVideoBaseScore (c : Content) : ℚ :=
  (c.views : ℚ) / 1000 + (c.likes : ℚ) / 100

/-- `scoring.calculateArticleBaseScore`: `reading_time + reactions/50`,
with a `nil` reading time read as 0. -/
def calculateArticleBaseScore (c : Content) : ℚ :=
  (match c.readingTime with
   | some rt => (rt : ℚ)
   | none => 0) + (c.reactions : ℚ) / 50

/-- `scoring.CalculateBaseScore` (base_score.go). -/
def CalculateBaseScore (c : Content) : ℚ :=
  if c.IsVideo then calculateVideoBaseScore c
  else if c.IsArticle then calculateArticleBaseScore c
  else 0

/-- `scoring.GetContentTypeCoefficient`: 1.5 for video, otherwise 1.0. -/
def GetContentTypeCoefficient (t : ContentType) : ℚ :=
  if t = ContentTypeVideo then 3 / 2 else 1

/-! ## scoring/freshness_score.go -/

/-- Age in whole days: Go computes `int(age.Hours() / 24)` from the
nanosecond duration `now - publishedAt`; the float division and the
truncating `int` conversion are rendered as truncated integer division of
nanoseconds by `nsPerDay`. -/
def GetAgeInDays (now publishedAt : Int) : Int :=
  (now - publishedAt).tdiv nsPerDay

/-- `scoring.CalculateFreshnessScore` (freshness_score.go): the step
function over the age in days. -/
def CalculateFreshnessScore (now publishedAt : Int) : ℚ :=
  let days := GetAgeInDays now publishedAt
  if days ≤ 7 then 5
  else if days ≤ 30 then 3
  else if days ≤ 90 then 1
  else 0

/-! ## scoring/engagement_score.go -/

/-- `scoring.calculateVideoEngagementScore`: `(likes/views) * 10`,
guarded to 0 when `views = 0`. -/
def calculateVideoEngagementScore (c : Content) : ℚ :=
  if c.views = 0 then 0
  else ((c.likes : ℚ) / (c.views : ℚ)) * 10

/-- `scoring.calculateArticleEngagementScore`: `(reactions/reading_time) * 5`,
guarded to 0 when `reading_time` is `nil` or 0. -/
def calculateArticleEngagementScore (c : Content) : ℚ :=
  match c.readingTime with
  | none => 0
  | some rt => if rt = 0 then 0 else ((c.reactions : ℚ) / (rt : ℚ)) * 5

/-- `scoring.CalculateEngagementScore` (engagement_score.go). -/
def CalculateEngagementScore (c : Content) : ℚ :=
  if c.IsVideo then calculateVideoEngagementScore c
  else if c.IsArticle then calculateArticleEngagementScore c
  else 0

/-! ## scoring/calculator.go -/

/-- `scoring.CalculateFinalScore`:
`base * coefficient + freshness + engagement`.  `now` renders the
`time.Now()` read inside `CalculateFreshnessScore`. -/
def CalculateFinalScore (now : Int) (c : Content) : ℚ :=
  let baseScore := CalculateBaseScore c
  let coefficient := GetContentTypeCoefficient c.type
  let weightedBaseScore := baseScore * coefficient
  let freshnessScore := CalculateFreshnessScore now c.publishedAt
  let engagementScore := CalculateEngagementScore c
  weightedBaseScore + freshnessScore + engagementScore

/-! ## model/validation.go

Go's `strings.TrimSpace` and `strings.ToLower` are modelled on the ASCII
fragment (the inputs of interest — provider type labels — are ASCII). -/

/-- ASCII fragment of Go's `unicode.IsSpace`. -/
def isSpaceGo (c : Char) : Bool :=
  c = ' ' || c = '\t' || c = '\n' || c = '\x0d' || c = '\x0b' || c = '\x0c'

/-- `strings.TrimSpace` on ASCII: drop whitespace from both ends. -/
def trimSpaceGo (s : String) : String :=
  ⟨((s.data.dropWhile isSpaceGo).reverse.dropWhile isSpaceGo).reverse⟩

/-- Lowercase one ASCII character. -/
def charLowerGo (c : Char) : Char :=
  if 'A' ≤ c ∧ c ≤ 'Z' then Char.ofNat (c.toNat + 32) else c

/-- `strings.ToLower` on ASCII. -/
def toLowerGo (s : String) : String := ⟨s.data.map charLowerGo⟩

/-- Uppercase one ASCII character. -/
def charUpperGo (c : Char) : Char :=
  if 'a' ≤ c ∧ c ≤ 'z' then Char.ofNat (c.toNat - 32) else c

/-- `strings.ToUpper` on ASCII. -/
def toUpperGo (s : String) : String := ⟨s.data.map charUpperGo⟩

/-- `model.NormalizeContentType` (validation.go). -/
def NormalizeContentType (s : String) : ContentType :=
  let t := toLowerGo (trimSpaceGo s)
  if t = "video" then ContentTypeVideo
  else if t = "article" || t = "text" || t = "post" then ContentTypeArticle
  else ContentTypeVideo

/-- `model.ValidateContent` (validation.go): `some msg` renders a non-nil
Go error, `none` renders nil.  `publishedAt = 0` renders the zero
`time.Time`. -/
def ValidateContent (c : Content) : Option String :=
  if c.title = "" then some "title is required"
  else if c.type ≠ ContentTypeVideo ∧ c.type ≠ ContentTypeArticle then
    some "type must be video or article"
  else if c.providerID ≤ 0 then some "provider_id must be greater than 0"
  else if c.externalID = "" then some "external_id is required"
  else if c.publishedAt = 0 then some "published_at is required"
  else if c.IsVideo ∧
      (c.durationSeconds.any (fun d => d < 0) ∨ c.views < 0 ∨ c.likes < 0) then
    some "invalid video metrics"
  else if c.IsArticle ∧
      (c.readingTime.any (fun rt => rt < 0) ∨ c.reactions < 0 ∨ c.comments < 0) then
    some "invalid article metrics"
  else none

/-! ## model/search.go -/

/-- `model.SearchRequest` (search.go).  Dates are `Option Int` instants. -/
structure SearchRequest where
  query : String
  type : Option ContentType
  providerID : Option Int
  startDate : Option Int
  endDate : Option Int
  page : Int
  perPage : Int
  sortBy : String
  sortOrder : String
deriving DecidableEq

/-- `Validate`, step 1: default the page to 1. -/
def vPage (r : SearchRequest) : SearchRequest :=
  if r.page < 1 then { r with page := 1 } else r

/-- `Validate`, step 2: default per_page to 10. -/
def vPerPageMin (r : SearchRequest) : SearchRequest :=
  if r.perPage < 1 then { r with perPage := 10 } else r

/-- `Validate`, step 3: cap per_page at 100. -/
def vPerPageMax (r : SearchRequest) : SearchRequest :=
  if r.perPage > 100 then { r with perPage := 100 } else r

/-- `Validate`, step 4: default the sort field to score. -/
def vSortByDefault (r : SearchRequest) : SearchRequest :=
  if r.sortBy = "" then { r with sortBy := "score" } else r

/-- `Validate`, step 5: whitelist the sort field (score, published_at,
title), anything else falling back to score. -/
def vSortByWhitelist (r : SearchRequest) : SearchRequest :=
  if r.sortBy = "score" ∨ r.sortBy = "published_at" ∨ r.sortBy = "title"
  then r else { r with sortBy := "score" }

/-- `Validate`, step 6: default the sort order to desc. -/
def vSortOrderDefault (r : SearchRequest) : SearchRequest :=
  if r.sortOrder = "" then { r with sortOrder := "desc" } else r

/-- `Validate`, step 7: whitelist the sort order (asc, desc), anything
else falling back to desc. -/
def vSortOrderWhitelist (r : SearchRequest) : SearchRequest :=
  if r.sortOrder ≠ "asc" ∧ r.sortOrder ≠ "desc"
  then { r with sortOrder := "desc" } else r

/-- `Validate`, step 8: swap an inverted date range. -/
def vDates (r : SearchRequest) : SearchRequest :=
  match r.startDate, r.endDate with
  | some s, some e =>
      if e < s then { r with startDate := some e, endDate := some s } else r
  | _, _ => r

/-- `SearchRequest.Validate` (search.go): defaulting and clamping, the
sort field and sort order whitelists, and the date-range swap, applied in
the source's statement order. -/
def SearchRequest.Validate (r : SearchRequest) : SearchRequest :=
  vDates (vSortOrderWhitelist (vSortOrderDefault (vSortByWhitelist
    (vSortByDefault (vPerPageMax (vPerPageMin (vPage r)))))))

/-- `SearchRequest.GetOffset` (search.go). -/
def SearchRequest.GetOffset (r : SearchRequest) : Int :=
  (r.page - 1) * r.perPage

/-- `model.SearchResponse` (search.go). -/
structure SearchResponse where
  results : List Content
  total : Int
  page : Int
  perPage : Int
  totalPages : Int
deriving DecidableEq

/-- `SearchResponse.CalculateTotalPages` (search.go): 0 for the sentinel
total -1, else Go's ceiling division `(total + perPage - 1) / perPage`
(Go `/` truncates toward zero, hence `Int.tdiv`). -/
def SearchResponse.CalculateTotalPages (r : SearchResponse) : SearchResponse :=
  if r.total < 0 then { r with totalPages := 0 }
  else if r.perPage > 0 then
    { r with totalPages := (r.total + r.perPage - 1).tdiv r.perPage }
  else { r with totalPages := 0 }

/-! ## repository/content_repository.go

The `contents` table is a list of rows; MySQL's auto-increment key is
rendered by `nextId` (one more than the largest id in the table). -/

/-- The contents table. -/
abbrev DB := List Content

/-- Row predicate for the `(provider_id, external_id)` natural key. -/
def keyMatches (pid : Int) (eid : String) (r : Content) : Bool :=
  r.providerID == pid && r.externalID == eid

/-- `ContentRepository.GetByProviderAndExternalID`: the row with the given
natural key, `none` rendering `ErrContentNotFound`. -/
def GetByProviderAndExternalID (db : DB) (pid : Int) (eid : String) :
    Option Content :=
  db.find? (keyMatches pid eid)

/-- Auto-increment id for the next `INSERT`. -/
def nextId (db : DB) : Int :=
  (db.map (fun r => r.id)).foldr max 0 + 1

/-- `ContentRepository.Create`: validate, then `INSERT` with a fresh
auto-increment id (written back into the returned row). -/
def Create (db : DB) (c : Content) : Except String DB :=
  match ValidateContent c with
  | some msg => .error msg
  | none => .ok (db ++ [{ c with id := nextId db }])

/-- `ContentRepository.Update`: validate, then `UPDATE ... WHERE id = ?`
setting every column except `id` and `created_at`. -/
def Update (db : DB) (c : Content) : Except String DB :=
  match ValidateContent c with
  | some msg => .error msg
  | none =>
      .ok (db.map (fun r =>
        if r.id == c.id then { c with id := r.id, createdAt := r.createdAt }
        else r))

/-- `ContentRepository.Upsert`: look up by natural key; create when
absent, otherwise update in place reusing the existing row's id. -/
def Upsert (db : DB) (c : Content) : Except String DB :=
  match GetByProviderAndExternalID db c.providerID c.externalID with
  | none => Create db c
  | some existing => Update db { c with id := existing.id }

/-- `ContentRepository.UpdateScore`: `UPDATE contents SET score = ? WHERE
id = ?`. -/
def UpdateScore (db : DB) (id : Int) (score : ℚ) : DB :=
  db.map (fun r => if r.id == id then { r with score := score } else r)

/-- `ScoringService.CalculateScoreForContent` (scoring_service.go): read
the row, recompute `CalculateFinalScore`, store it with `UpdateScore`. -/
def CalculateScoreForContent (db : DB) (id : Int) (now : Int) :
    Except String DB :=
  match db.find? (fun r => r.id == id) with
  | none => .error "content not found"
  | some c => .ok (UpdateScore db id (CalculateFinalScore now c))

/-! ### The search query (`ContentRepository.Search`)

The SQL engine's evaluation of the generated query is modelled over the
list table.  The title keyword match (`MATCH ... AGAINST` or `LIKE`) is
engine behaviour outside the repository's code, so the row-level title
predicate is an abstract parameter `tmatch`; every other filter is concrete. -/

/-- The `WHERE` clause of `Search` as a row predicate: keyword (abstract),
type equality, provider equality, inclusive date range. -/
def matchesWhere (tmatch : String → String → Bool) (req : SearchRequest)
    (r : Content) : Bool :=
  (req.query == "" || tmatch req.query r.title) &&
  (match req.type with | some t => r.type == t | none => true) &&
  (match req.providerID with | some p => r.providerID == p | none => true) &&
  (match req.startDate with | some s => s ≤ r.publishedAt | none => true) &&
  (match req.endDate with | some e => r.publishedAt ≤ e | none => true)

/-- The repository's `ORDER BY` field whitelist (`Search`): unlike
`SearchRequest.Validate`, it also accepts `id`. -/
def searchSortBy (req : SearchRequest) : String :=
  if req.sortBy = "score" ∨ req.sortBy = "published_at" ∨
      req.sortBy = "title" ∨ req.sortBy = "id"
  then req.sortBy else "score"

/-- The repository's `ORDER BY` direction whitelist (`Search`): uppercase,
then accept only `ASC`/`DESC`, defaulting to `DESC`. -/
def searchSortOrder (req : SearchRequest) : String :=
  let u := toUpperGo req.sortOrder
  if u = "ASC" ∨ u = "DESC" then u else "DESC"

/-- The `ORDER BY` clause built by `Search`
(`fmt.Sprintf("ORDER BY %s %s, id DESC", sortBy, sortOrder)`). -/
def orderByClause (req : SearchRequest) : String :=
  "ORDER BY " ++ searchSortBy req ++ " " ++ searchSortOrder req ++ ", id DESC"

/-- Three-way comparison in a linear order. -/
def cmp3 {α : Type} [LinearOrder α] (a b : α) : Ordering :=
  if a < b then .lt else if b < a then .gt else .eq

/-- The sort key of one row under a whitelisted `ORDER BY` field. -/
def cmpField (field : String) (a b : Content) : Ordering :=
  if field = "published_at" then cmp3 a.publishedAt b.publishedAt
  else if field = "title" then cmp3 a.title b.title
  else if field = "id" then cmp3 a.id b.id
  else cmp3 a.score b.score

/-- SQL `ORDER BY field dir, id DESC` as a Boolean "comes no later than"
relation on rows: the primary key in the requested direction, ties broken
by `id` descending. -/
def rowLe (field dir : String) (a b : Content) : Bool :=
  let o := cmpField field a b
  let o := if dir = "DESC" then o.swap else o
  match o with
  | .lt => true
  | .gt => false
  | .eq => decide (b.id ≤ a.id)

/-- `rowLe` specialized to one sort key: the generic comparator under a
direction with the id tie-break, used to reason about the four whitelisted
fields uniformly. -/
def keyLe {α : Type} [LinearOrder α] (k : Content → α) (dir : String)
    (a b : Content) : Bool :=
  let o := cmp3 (k a) (k b)
  let o := if dir = "DESC" then o.swap else o
  match o with
  | .lt => true
  | .gt => false
  | .eq => decide (b.id ≤ a.id)

/-- Outcome of `ContentRepository.Search`: the returned page and the total
(with the sentinel -1 when the `COUNT` sub-query timed out, which the code
signals via `countCtx.Err() == context.DeadlineExceeded`). -/
structure SearchOutcome where
  results : List Content
  total : Int
deriving DecidableEq

/-- `ContentRepository.Search` over the list table.  `countTimedOut`
renders the `COUNT` sub-query exceeding its 10-second timeout; the main
page query filters, sorts by the whitelisted clause and applies
`LIMIT perPage OFFSET offset`. -/
def Search (tmatch : String → String → Bool) (db : DB) (req : SearchRequest)
    (countTimedOut : Bool) : SearchOutcome :=
  let rows := db.filter (matchesWhere tmatch req)
  let total : Int := if countTimedOut then -1 else rows.length
  let sorted := rows.mergeSort (rowLe (searchSortBy req) (searchSortOrder req))
  let page := (sorted.drop (req.GetOffset).toNat).take req.perPage.toNat
  { results := page, total := total }

/-- `SearchService.Search` (search_service.go, cache miss path): validate
the request, run the repository query, assemble the response and call
`CalculateTotalPages`. -/
def ServiceSearch (tmatch : String → String → Bool) (db : DB)
    (req0 : SearchRequest) (countTimedOut : Bool) : SearchResponse :=
  let req := req0.Validate
  let o := Search tmatch db req countTimedOut
  SearchResponse.CalculateTotalPages
    { results := o.results, total := o.total, page := req.page,
      perPage := req.perPage, totalPages := 0 }

/-! ## provider/rate_limiter.go

The token bucket.  `Wait` reads the clock twice (`time.Now()` on entry and
again after a sleep); a call is rendered as a state transition given the
entry instant `now`, with the sleep ending exactly `waitTime` later. -/

/-- `provider.RateLimiter` state. -/
structure RateLimiter where
  rate : Int
  tokens : Int
  maxTokens : Int
  lastUpdate : Int
deriving DecidableEq

/-- `provider.NewRateLimiter`: clamp the rate to at least 1 and start with
a full bucket at instant `t0`. -/
def NewRateLimiter (rate : Int) (t0 : Int) : RateLimiter :=
  let r := if rate < 1 then 1 else rate
  { rate := r, tokens := r, maxTokens := r, lastUpdate := t0 }

/-- `RateLimiter.Wait` as a state transition at entry instant `now`:
refill `int(elapsed.Minutes() * rate)` tokens (capped at `maxTokens`),
consume one if available, otherwise sleep until the next token and then
decrement — the source decrements without re-refilling after the sleep. -/
def RateLimiter.Wait (rl0 : RateLimiter) (now : Int) : RateLimiter :=
  let elapsed := now - rl0.lastUpdate
  let tokensToAdd := (elapsed * rl0.rate).tdiv nsPerMinute
  let rl :=
    if tokensToAdd > 0 then
      { rl0 with
        tokens := min (rl0.tokens + tokensToAdd) rl0.maxTokens,
        lastUpdate := now }
    else rl0
  if rl.tokens > 0 then { rl with tokens := rl.tokens - 1 }
  else
    let timePerToken := nsPerMinute.tdiv rl.rate
    let waitTime := timePerToken - elapsed
    if waitTime > 0 then
      { rl with tokens := rl.tokens - 1, lastUpdate := now + waitTime }
    else
      { rl with tokens := rl.tokens - 1, lastUpdate := now }

/-- `RateLimiter.SetRate`: clamp the new rate to at least 1, adopt it as
the new ceiling, and clamp the current token count to that ceiling. -/
def RateLimiter.SetRate (rl : RateLimiter) (rate : Int) : RateLimiter :=
  let r := if rate < 1 then 1 else rate
  { rl with
    rate := r, maxTokens := r,
    tokens := if rl.tokens > r then r else rl.tokens }

/-! ## pkg/ratelimit (sliding-window limiter, `RedisRateLimiter.Allow`)

The Redis sorted set for one key is a list of Unix-second scores.  The
pipeline runs `ZREMRANGEBYSCORE key 0 windowStart`, `ZCARD` (the count
before the new member is added), `ZADD now`, in that order. -/

/-- Result of one `Allow` call. -/
structure AllowResult where
  allowed : Bool
  remaining : Int
  entries : List Int
deriving DecidableEq

/-- `RedisRateLimiter.Allow` over one key's sorted set `st`: drop scores
in `[0, now - window]`, count what is left, append the caller's own
timestamp, and compare that prior count against the limit. -/
def SlidingAllow (st : List Int) (now window limit : Int) : AllowResult :=
  let windowStart := now - window
  let kept := st.filter (fun t => ¬(0 ≤ t ∧ t ≤ windowStart))
  let count : Int := kept.length
  let entries := kept ++ [now]
  let allowed := count ≤ limit
  let remaining := if limit - count < 0 then 0 else limit - count
  { allowed := allowed, remaining := remaining, entries := entries }

/-! ## provider/manager.go

`FetchAll` fans out one worker per registered provider; each worker is the
sequential `fetchFromProvider` body.  A worker's interactions with the
outside world are rendered as per-provider inputs: the result of
`provider.Fetch()` (`none` = error) and the provider's row id in the
providers table (`none` = `GetByName` failed).  Item upserts go through
`Upsert` on the shared contents table and fail exactly when the row is
rejected by `ValidateContent`; a failed upsert is logged and skipped
(`continue`).  `UpdateLastFetched` is modelled as succeeding when called
(its own storage error is only logged by the source).  The concurrent
workers are rendered as a sequential fold — a linearization; whether a
worker errors and updates `last_fetched_at` depends only on its own
inputs, never on the interleaving. -/

/-- One registered provider together with this call's external outcomes. -/
structure ProviderRun where
  name : String
  fetchResult : Option (List Content)
  providerRowID : Option Int
deriving DecidableEq

/-- What one `fetchFromProvider` call did. -/
structure FetchEffect where
  errored : Bool
  lastFetchedUpdated : Bool
  db : DB
deriving DecidableEq

/-- The per-item upsert loop of `fetchFromProvider`: set the item's
`provider_id`, upsert it, and on error keep the table as it was and move
on. -/
def upsertItems (db : DB) (rid : Int) : List Content → DB
  | [] => db
  | c :: rest =>
      match Upsert db { c with providerID := rid } with
      | .ok db2 => upsertItems db2 rid rest
      | .error _ => upsertItems db rid rest

/-- `Manager.fetchFromProvider`: rate-limit wait, fetch (abort on error),
provider lookup (abort on error), then upsert every item — failed upserts
are skipped — and finally update `last_fetched_at` once. -/
def fetchFromProvider (db : DB) (p : ProviderRun) : FetchEffect :=
  match p.fetchResult with
  | none => { errored := true, lastFetchedUpdated := false, db := db }
  | some contents =>
      match p.providerRowID with
      | none => { errored := true, lastFetchedUpdated := false, db := db }
      | some rid =>
          { errored := false, lastFetchedUpdated := true,
            db := upsertItems db rid contents }

/-- `Manager.FetchAll`: run every registered provider's worker, collect
the per-provider errors, and report an aggregate error exactly when at
least one worker failed. -/
def FetchAll (db : DB) : List ProviderRun → Bool × DB × List FetchEffect
  | [] => (false, db, [])
  | p :: rest =>
      let e := fetchFromProvider db p
      let r := FetchAll e.db rest
      (e.errored || r.1, r.2.1, e :: r.2.2)

/-- The part of the claimed token-bucket invariant that the code does
maintain: the rate is at least 1, the ceiling equals the rate, and the
token count never exceeds the ceiling. -/
def RateLimiterInv (rl : RateLimiter) : Prop :=
  1 ≤ rl.rate ∧ rl.maxTokens = rl.rate ∧ rl.tokens ≤ rl.maxTokens

/-! ## Concrete scenario inputs (the spec's test scenarios) -/

/-- The spec's video scenario: views 50000, likes 2500, duration 930 s,
published 3 days before the evaluation instant `now`. -/
def sampleVideo (now : Int) : Content :=
  { id := 1, providerID := 1, externalID := "v1", title := "a video",
    type := ContentTypeVideo, views := 50000, likes := 2500,
    durationSeconds := some 930, readingTime := none, reactions := 0,
    comments := 0, publishedAt := now - 3 * nsPerDay, score := 0,
    createdAt := 0, updatedAt := 0 }

/-- The spec's article scenario: reading time 10, reactions 500, published
45 days before the evaluation instant `now`. -/
def sampleArticle (now : Int) : Content :=
  { id := 2, providerID := 1, externalID := "a1", title := "an article",
    type := ContentTypeArticle, views := 0, likes := 0,
    durationSeconds := none, readingTime := some 10, reactions := 500,
    comments := 0, publishedAt := now - 45 * nsPerDay, score := 0,
    createdAt := 0, updatedAt := 0 }

/-- The scenario video re-fetched with bumped metrics (same natural
key). -/
def sampleVideoRefetched : Content :=
  { sampleVideo 0 with views := 60000, likes := 3000 }

/-- A request asking to sort by `id` (with every other field at its
default), probing the sort-field whitelists. -/
def reqSortById : SearchRequest :=
  { query := "", type := none, providerID := none, startDate := none,
    endDate := none, page := 1, perPage := 10, sortBy := "id",
    sortOrder := "desc" }

/-- A provider whose `Fetch()` call fails. -/
def demoFailing : ProviderRun :=
  { name := "p1", fetchResult := none, providerRowID := some 1 }

/-- A provider whose fetch succeeds but whose first item is rejected by
`ValidateContent` (empty title), so its first upsert fails. -/
def demoPartial : ProviderRun :=
  { name := "p2", fetchResult := some [{ sampleVideo 0 with title := "" },
      sampleVideo 0], providerRowID := some 1 }

/-- A provider whose fetch and upserts all succeed. -/
def demoOk : ProviderRun :=
  { name := "p3", fetchResult := some [sampleArticle 0],
    providerRowID := some 2 }

/-- A three-provider registry exercising every `fetchFromProvider` path. -/
def demoProviders : List ProviderRun := [demoFailing, demoPartial, demoOk]

/-! ## Helper lemmas -/

/-- Every element of a list of integers is at most the fold of `max` over
it (seeded with 0). -/
theorem le_foldr_max (l : List Int) (x : Int) (h : x ∈ l) :
    x ≤ l.foldr max 0 := by
  induction l with
  | nil => cases h
  | cons a t ih =>
      rcases List.mem_cons.mp h with rfl | h
      · exact le_max_left _ _
      · exact le_trans (ih h) (le_max_right _ _)

/-- The auto-increment id is strictly larger than every stored id. -/
theorem mem_id_lt_nextId (db : DB) (r : Content) (h : r ∈ db) :
    r.id < nextId db := by
  unfold nextId
  have hm : r.id ∈ db.map (fun x => x.id) := List.mem_map_of_mem _ h
  have := le_foldr_max _ _ hm
  omega

/-- `find?` skips a prefix on which the predicate is everywhere false. -/
theorem find?_append_of_none {α : Type} (p : α → Bool) (l1 l2 : List α)
    (h : ∀ x ∈ l1, p x = false) : (l1 ++ l2).find? p = l2.find? p := by
  induction l1 with
  | nil => rfl
  | cons a t ih =>
      rw [List.cons_append, List.find?_cons_of_neg _ (by simp [h a (by simp)])]
      exact ih (fun x hx => h x (List.mem_cons_of_mem a hx))

/-- Mapping a function that fixes every element of a list is the
identity. -/
theorem map_id_of_unchanged (f : Content → Content) (l : DB)
    (h : ∀ r ∈ l, f r = r) : l.map f = l := by
  induction l with
  | nil => rfl
  | cons a t ih =>
      rw [List.map_cons, h a (by simp),
        ih (fun x hx => h x (List.mem_cons_of_mem a hx))]

/-- `Create` on a valid row appends it with the fresh id. -/
theorem Create_ok (db : DB) (c : Content) (h : ValidateContent c = none) :
    Create db c = .ok (db ++ [{ c with id := nextId db }]) := by
  unfold Create
  rw [h]

/-- `Update` on a valid row rewrites exactly the rows with its id. -/
theorem Update_ok (db : DB) (c : Content) (h : ValidateContent c = none) :
    Update db c = .ok (db.map (fun r =>
      if r.id == c.id then { c with id := r.id, createdAt := r.createdAt }
      else r)) := by
  unfold Update
  rw [h]

/-- Unfolding of `CalculateFinalScore` on a video row. -/
theorem finalScore_video (now : Int) (c : Content)
    (h : c.type = ContentTypeVideo) :
    CalculateFinalScore now c =
      ((c.views : ℚ) / 1000 + (c.likes : ℚ) / 100) * (3 / 2) +
        CalculateFreshnessScore now c.publishedAt +
        CalculateEngagementScore c := by
  simp [CalculateFinalScore, CalculateBaseScore, GetContentTypeCoefficient,
    calculateVideoBaseScore, Content.IsVideo, Content.IsArticle, h,
    ContentTypeVideo, ContentTypeArticle]

/-- Unfolding of `CalculateFinalScore` on an article row. -/
theorem finalScore_article (now : Int) (c : Content)
    (h : c.type = ContentTypeArticle) :
    CalculateFinalScore now c =
      (((c.readingTime.getD 0 : Int) : ℚ) + (c.reactions : ℚ) / 50) * 1 +
        CalculateFreshnessScore now c.publishedAt +
        CalculateEngagementScore c := by
  rcases hrt : c.readingTime with _ | rt <;>
    simp [CalculateFinalScore, CalculateBaseScore, GetContentTypeCoefficient,
      calculateArticleBaseScore, Content.IsVideo, Content.IsArticle, h, hrt,
      ContentTypeVideo, ContentTypeArticle]

/-- Age of an item published exactly `k` nanoseconds before `now`. -/
theorem ageDays_sub (now k : Int) :
    GetAgeInDays now (now - k) = k.tdiv nsPerDay := by
  unfold GetAgeInDays
  norm_num

/-- Freshness of an item aged between 0 and 7 whole days is 5. -/
theorem freshness_of_age_le_7 (now pub : Int) (h : GetAgeInDays now pub ≤ 7) :
    CalculateFreshnessScore now pub = 5 := by
  unfold CalculateFreshnessScore
  simp [h]

/-- Freshness of an item aged between 31 and 90 whole days is 1. -/
theorem freshness_of_age_31_90 (now pub : Int)
    (h1 : 31 ≤ GetAgeInDays now pub) (h2 : GetAgeInDays now pub ≤ 90) :
    CalculateFreshnessScore now pub = 1 := by
  unfold CalculateFreshnessScore
  have h3 : ¬ GetAgeInDays now pub ≤ 7 := by omega
  have h4 : ¬ GetAgeInDays now pub ≤ 30 := by omega
  simp [h2, h3, h4]

/-! ## Claims about the scoring engine -/

/-- Claim C6: `CalculateFreshnessScore` is a pure step function of the
item's age in whole days at evaluation time: 0-7 days give 5, 8-30 give 3,
31-90 give 1, and 91 or more give 0; it depends only on the difference of
the two instants (shifting evaluation time and publication time together —
a timezone change of the wall clock — never changes it). -/
theorem freshness_step_function (now pub : Int) :
    (0 ≤ GetAgeInDays now pub ∧ GetAgeInDays now pub ≤ 7 →
      CalculateFreshnessScore now pub = 5) ∧
    (8 ≤ GetAgeInDays now pub ∧ GetAgeInDays now pub ≤ 30 →
      CalculateFreshnessScore now pub = 3) ∧
    (31 ≤ GetAgeInDays now pub ∧ GetAgeInDays now pub ≤ 90 →
      CalculateFreshnessScore now pub = 1) ∧
    (91 ≤ GetAgeInDays now pub → CalculateFreshnessScore now pub = 0) ∧
    (∀ shift : Int,
      CalculateFreshnessScore (now + shift) (pub + shift) =
        CalculateFreshnessScore now pub) := by
  have hshift : ∀ shift : Int,
      GetAgeInDays (now + shift) (pub + shift) = GetAgeInDays now pub := by
    intro shift
    unfold GetAgeInDays
    ring_nf
  refine ⟨fun h => ?_, fun h => ?_, fun h => ?_, fun h => ?_, fun shift => ?_⟩
  · exact freshness_of_age_le_7 now pub h.2
  · unfold CalculateFreshnessScore
    have h1 : ¬ GetAgeInDays now pub ≤ 7 := by omega
    simp [h1, h.2]
  · exact freshness_of_age_31_90 now pub h.1 h.2
  · unfold CalculateFreshnessScore
    have h1 : ¬ GetAgeInDays now pub ≤ 7 := by omega
    have h2 : ¬ GetAgeInDays now pub ≤ 30 := by omega
    have h3 : ¬ GetAgeInDays now pub ≤ 90 := by omega
    simp [h1, h2, h3]
  · unfold CalculateFreshnessScore
    rw [hshift]

/-- Witness for C6: concrete ages in each band. -/
theorem freshness_step_function_witness :
    CalculateFreshnessScore (3 * nsPerDay) 0 = 5 ∧
    CalculateFreshnessScore (20 * nsPerDay) 0 = 3 ∧
    CalculateFreshnessScore (45 * nsPerDay) 0 = 1 ∧
    CalculateFreshnessScore (100 * nsPerDay) 0 = 0 := by
  refine ⟨?_, ?_, ?_, ?_⟩
  · exact (freshness_step_function (3 * nsPerDay) 0).1 (by decide)
  · exact (freshness_step_function (20 * nsPerDay) 0).2.1 (by decide)
  · exact (freshness_step_function (45 * nsPerDay) 0).2.2.1 (by decide)
  · exact (freshness_step_function (100 * nsPerDay) 0).2.2.2.1 (by decide)

/-- Unfolding of `CalculateEngagementScore` on a video row. -/
theorem engagement_video (c : Content) (h : c.type = ContentTypeVideo) :
    CalculateEngagementScore c =
      if c.views = 0 then 0 else ((c.likes : ℚ) / (c.views : ℚ)) * 10 := by
  simp [CalculateEngagementScore, calculateVideoEngagementScore,
    Content.IsVideo, h, ContentTypeVideo]

/-- Unfolding of `CalculateEngagementScore` on an article row. -/
theorem engagement_article (c : Content) (h : c.type = ContentTypeArticle) :
    CalculateEngagementScore c =
      (match c.readingTime with
       | none => 0
       | some rt =>
           if rt = 0 then 0 else ((c.reactions : ℚ) / (rt : ℚ)) * 5) := by
  simp [CalculateEngagementScore, calculateArticleEngagementScore,
    Content.IsVideo, Content.IsArticle, h, ContentTypeVideo,
    ContentTypeArticle]

/-- The article scenario's engagement: (500 / 10) * 5 = 250. -/
theorem sampleArticle_engagement (now : Int) :
    CalculateEngagementScore (sampleArticle now) = 250 := by
  rw [engagement_article (sampleArticle now) rfl]
  norm_num [sampleArticle]

/-- The article scenario's freshness: 45 whole days of age give +1. -/
theorem sampleArticle_freshness (now : Int) :
    CalculateFreshnessScore now (sampleArticle now).publishedAt = 1 := by
  have hpub : (sampleArticle now).publishedAt = now - 45 * nsPerDay := rfl
  have hage : GetAgeInDays now (sampleArticle now).publishedAt = 45 := by
    rw [hpub, ageDays_sub]; decide
  exact freshness_of_age_31_90 now (sampleArticle now).publishedAt
    (by omega) (by omega)

/-- Claim C1 (counterexample): the spec's article scenario — reading time
10, reactions 500, published 45 days before evaluation — scores 271.0, not
273.0: 45 days of age fall in the 31-90-day freshness band (+1), not the
8-30-day band (+3). -/
theorem article_scenario_scores_271 :
    CalculateFinalScore (45 * nsPerDay) (sampleArticle (45 * nsPerDay)) = 271 ∧
    CalculateFinalScore (45 * nsPerDay) (sampleArticle (45 * nsPerDay)) ≠ 273 := by
  have h := finalScore_article (45 * nsPerDay) (sampleArticle (45 * nsPerDay)) rfl
  rw [sampleArticle_freshness, sampleArticle_engagement] at h
  rw [h]
  norm_num [sampleArticle]

/-- Claim C1 (amended): `CalculateFinalScore` is
`base × type_coefficient + freshness + engagement` with
`base = views/1000 + likes/100` (video, coefficient 1.5) and
`base = reading_time + reactions/50` (article, reading time 0 when absent,
coefficient 1.0); the video scenario (views 50000, likes 2500, published 3
days before evaluation) scores exactly 118.0, and the article scenario
(reading time 10, reactions 500, published 45 days before evaluation)
scores exactly 271.0 — 45-day-old items get freshness +1, not the +3 the
original claim assumed. -/
theorem calculate_final_score_formula :
    (∀ (now : Int) (c : Content), c.type = ContentTypeVideo →
      CalculateFinalScore now c =
        ((c.views : ℚ) / 1000 + (c.likes : ℚ) / 100) * (3 / 2) +
          CalculateFreshnessScore now c.publishedAt +
          CalculateEngagementScore c) ∧
    (∀ (now : Int) (c : Content), c.type = ContentTypeArticle →
      CalculateFinalScore now c =
        (((c.readingTime.getD 0 : Int) : ℚ) + (c.reactions : ℚ) / 50) * 1 +
          CalculateFreshnessScore now c.publishedAt +
          CalculateEngagementScore c) ∧
    (∀ now : Int, CalculateFinalScore now (sampleVideo now) = 118) ∧
    (∀ now : Int, CalculateFinalScore now (sampleArticle now) = 271) := by
  refine ⟨finalScore_video, finalScore_article, fun now => ?_, fun now => ?_⟩
  · have hfresh : CalculateFreshnessScore now (sampleVideo now).publishedAt = 5 := by
      apply freshness_of_age_le_7
      show GetAgeInDays now (now - 3 * nsPerDay) ≤ 7
      rw [ageDays_sub]
      decide
    have heng : CalculateEngagementScore (sampleVideo now) = 1 / 2 := by
      norm_num [CalculateEngagementScore, calculateVideoEngagementScore,
        Content.IsVideo, Content.IsArticle, sampleVideo, ContentTypeVideo,
        ContentTypeArticle]
    rw [finalScore_video now (sampleVideo now) rfl, hfresh, heng]
    norm_num [sampleVideo]
  · rw [finalScore_article now (sampleArticle now) rfl,
      sampleArticle_freshness, sampleArticle_engagement]
    norm_num [sampleArticle]

/-- Witness for C1: the formula instantiated at the two scenario rows,
with the concrete totals. -/
theorem calculate_final_score_formula_witness :
    CalculateFinalScore 0 (sampleVideo 0) =
      (((sampleVideo 0).views : ℚ) / 1000 + ((sampleVideo 0).likes : ℚ) / 100) *
          (3 / 2) +
        CalculateFreshnessScore 0 (sampleVideo 0).publishedAt +
        CalculateEngagementScore (sampleVideo 0) ∧
    CalculateFinalScore 0 (sampleArticle 0) =
      ((((sampleArticle 0).readingTime.getD 0 : Int) : ℚ) +
          ((sampleArticle 0).reactions : ℚ) / 50) * 1 +
        CalculateFreshnessScore 0 (sampleArticle 0).publishedAt +
        CalculateEngagementScore (sampleArticle 0) ∧
    CalculateFinalScore 0 (sampleVideo 0) = 118 ∧
    CalculateFinalScore 0 (sampleArticle 0) = 271 :=
  ⟨calculate_final_score_formula.1 0 (sampleVideo 0) rfl,
   calculate_final_score_formula.2.1 0 (sampleArticle 0) rfl,
   calculate_final_score_formula.2.2.1 0,
   calculate_final_score_formula.2.2.2 0⟩

/-- Claim C7: `CalculateEngagementScore` is 0 (an actual number, no
division performed) for videos with 0 views and for articles with absent
or 0 reading time, and otherwise equals `(likes/views) × 10` for videos
and `(reactions/reading_time) × 5` for articles. -/
theorem engagement_guarded (c : Content) :
    (c.type = ContentTypeVideo → c.views = 0 →
      CalculateEngagementScore c = 0) ∧
    (c.type = ContentTypeArticle →
      (c.readingTime = none ∨ c.readingTime = some 0) →
      CalculateEngagementScore c = 0) ∧
    (c.type = ContentTypeVideo → c.views ≠ 0 →
      CalculateEngagementScore c = ((c.likes : ℚ) / (c.views : ℚ)) * 10) ∧
    (∀ rt : Int, c.type = ContentTypeArticle → c.readingTime = some rt →
      rt ≠ 0 →
      CalculateEngagementScore c = ((c.reactions : ℚ) / (rt : ℚ)) * 5) := by
  refine ⟨fun h hv => ?_, fun h hrt => ?_, fun h hv => ?_,
    fun rt h hrt h0 => ?_⟩
  · rw [engagement_video c h]
    simp [hv]
  · rw [engagement_article c h]
    rcases hrt with hrt | hrt <;> simp [hrt]
  · rw [engagement_video c h]
    simp [hv]
  · rw [engagement_article c h, hrt]
    simp [h0]

/-- Witness for C7: each guard and each formula branch at a concrete row. -/
theorem engagement_guarded_witness :
    CalculateEngagementScore
        { sampleVideo 0 with views := 0, likes := 7 } = 0 ∧
    CalculateEngagementScore
        { sampleArticle 0 with readingTime := none } = 0 ∧
    CalculateEngagementScore
        { sampleArticle 0 with readingTime := some 0 } = 0 ∧
    CalculateEngagementScore (sampleVideo 0) = ((2500 : ℚ) / 50000) * 10 ∧
    CalculateEngagementScore (sampleArticle 0) = ((500 : ℚ) / 10) * 5 := by
  refine ⟨(engagement_guarded _).1 rfl rfl,
    (engagement_guarded _).2.1 rfl (Or.inl rfl),
    (engagement_guarded _).2.1 rfl (Or.inr rfl),
    (engagement_guarded _).2.2.1 rfl (by decide), ?_⟩
  exact (engagement_guarded _).2.2.2 10 rfl rfl (by decide)

/-- `NormalizeContentType` as one case split on the normalized label. -/
theorem normalizeContentType_eq (s : String) :
    NormalizeContentType s =
      if toLowerGo (trimSpaceGo s) = "article" ∨
          toLowerGo (trimSpaceGo s) = "text" ∨
          toLowerGo (trimSpaceGo s) = "post"
      then ContentTypeArticle else ContentTypeVideo := by
  unfold NormalizeContentType
  by_cases hv : toLowerGo (trimSpaceGo s) = "video"
  · simp [hv, ContentTypeVideo, ContentTypeArticle]
  · by_cases hm : toLowerGo (trimSpaceGo s) = "article" ∨
        toLowerGo (trimSpaceGo s) = "text" ∨ toLowerGo (trimSpaceGo s) = "post"
    · simp only [hv, hm, if_true, if_false, decide_eq_true_eq]
      rcases hm with h | h | h <;> simp [h]
    · have ha : ¬ toLowerGo (trimSpaceGo s) = "article" := fun h => hm (Or.inl h)
      have ht : ¬ toLowerGo (trimSpaceGo s) = "text" :=
        fun h => hm (Or.inr (Or.inl h))
      have hp : ¬ toLowerGo (trimSpaceGo s) = "post" :=
        fun h => hm (Or.inr (Or.inr h))
      simp [hv, hm, ha, ht, hp]

/-! ## Claims about type normalization -/

/-- Claim C9: `NormalizeContentType` always lands in {video, article};
after trimming and lowercasing, `article`/`text`/`post` map to article,
`video` maps to video, and everything else — the empty string included —
falls back to video, which then gets the 1.5 coefficient. -/
theorem normalize_content_type (s : String) :
    (NormalizeContentType s = ContentTypeVideo ∨
      NormalizeContentType s = ContentTypeArticle) ∧
    (NormalizeContentType s = ContentTypeArticle ↔
      (toLowerGo (trimSpaceGo s) = "article" ∨
        toLowerGo (trimSpaceGo s) = "text" ∨
        toLowerGo (trimSpaceGo s) = "post")) ∧
    (toLowerGo (trimSpaceGo s) = "video" →
      NormalizeContentType s = ContentTypeVideo) ∧
    NormalizeContentType "" = ContentTypeVideo ∧
    NormalizeContentType "breaking-news" = ContentTypeVideo ∧
    GetContentTypeCoefficient (NormalizeContentType "breaking-news") = 3 / 2 := by
  rw [normalizeContentType_eq]
  refine ⟨?_, ?_, ?_, by decide, by decide, ?_⟩
  · split
    · exact Or.inr rfl
    · exact Or.inl rfl
  · split
    · rename_i hm
      simp [hm]
    · rename_i hm
      constructor
      · intro h
        exact absurd h (by decide)
      · intro h
        exact absurd h hm
  · intro hv
    rw [hv]
    simp
  · rw [show NormalizeContentType "breaking-news" = ContentTypeVideo by decide]
    simp [GetContentTypeCoefficient]

/-- Witness for C9: the trimmed, lowercased inputs of each class. -/
theorem normalize_content_type_witness :
    NormalizeContentType "  Post " = ContentTypeArticle ∧
    NormalizeContentType "VIDEO" = ContentTypeVideo := by
  constructor
  · exact (normalize_content_type "  Post ").2.1.mpr (by decide)
  · exact (normalize_content_type "VIDEO").2.2.1 (by decide)

/-! ## Claims about the token-bucket rate limiter -/

/-- Claim C8 (counterexample): the token count does not stay within
[0, R].  On a rate-1 limiter created at instant 0, an immediate `Wait`
consumes the single token, and a second immediate `Wait` enters the
sleeping branch and decrements the count from 0 to -1 — the source does
not re-refill after the sleep. -/
theorem rate_limiter_tokens_go_negative :
    (((NewRateLimiter 1 0).Wait 0).Wait 0).tokens = -1 ∧
    ¬ (0 ≤ (((NewRateLimiter 1 0).Wait 0).Wait 0).tokens ∧
        (((NewRateLimiter 1 0).Wait 0).Wait 0).tokens ≤ 1) := by
  decide

/-- Claim C8 (amended): the token count starts full at rate R (with R
clamped to at least 1 at construction) and never exceeds the current rate
across every sequence of `Wait` and `SetRate` calls at any times, and
`SetRate` clamps the current count to the new ceiling; the count is not
bounded below by 0, though — `Wait` on an empty bucket leaves a deficit. -/
theorem rate_limiter_bounds (r t0 now r2 : Int) (rl : RateLimiter)
    (h : RateLimiterInv rl) :
    (NewRateLimiter r t0).tokens = (NewRateLimiter r t0).rate ∧
    1 ≤ (NewRateLimiter r t0).rate ∧
    RateLimiterInv (NewRateLimiter r t0) ∧
    RateLimiterInv (rl.Wait now) ∧
    RateLimiterInv (rl.SetRate r2) ∧
    (rl.SetRate r2).tokens ≤ (rl.SetRate r2).maxTokens := by
  obtain ⟨h1, h2, h3⟩ := h
  have hnew : RateLimiterInv (NewRateLimiter r t0) := by
    unfold NewRateLimiter RateLimiterInv
    dsimp only
    split_ifs <;> omega
  refine ⟨by unfold NewRateLimiter; dsimp only, ?_, hnew, ?_, ?_, ?_⟩
  · exact hnew.1
  · have hmin := min_le_right
      (rl.tokens + ((now - rl.lastUpdate) * rl.rate).tdiv nsPerMinute)
      rl.maxTokens
    unfold RateLimiter.Wait RateLimiterInv
    dsimp only
    split_ifs <;> simp_all <;> omega
  · unfold RateLimiter.SetRate RateLimiterInv
    dsimp only
    split_ifs <;> simp_all
  · unfold RateLimiter.SetRate
    dsimp only
    split_ifs <;> omega

/-- Witness for C8 (amended): a rate-5 limiter, one immediate `Wait`, then
a `SetRate` down to 3. -/
theorem rate_limiter_bounds_witness :
    RateLimiterInv ((NewRateLimiter 5 0).Wait 0) ∧
    RateLimiterInv ((NewRateLimiter 5 0).SetRate 3) ∧
    ((NewRateLimiter 5 0).SetRate 3).tokens ≤
      ((NewRateLimiter 5 0).SetRate 3).maxTokens := by
  have h := rate_limiter_bounds 2 7 0 3 (NewRateLimiter 5 0)
    ⟨by decide, by decide, by decide⟩
  exact ⟨h.2.2.2.1, h.2.2.2.2.1, h.2.2.2.2.2⟩

/-! ## Claims about the sliding-window limiter -/

/-- Claim C10: `Allow` records the caller's timestamp unconditionally and
admits the request exactly when at most `limit` earlier requests lie in
the window (the count is taken before the new entry is added, so limit+1
requests per window get through: with limit 2, three same-instant calls
from empty are all allowed and the fourth is denied); the reported
remaining quota is `limit` minus the prior count, floored at 0. -/
theorem sliding_window_allow (st : List Int) (now window limit : Int) :
    ((SlidingAllow st now window limit).entries =
      st.filter (fun t => ¬(0 ≤ t ∧ t ≤ now - window)) ++ [now] ∧
    ((SlidingAllow st now window limit).allowed = true ↔
      ((st.filter (fun t => ¬(0 ≤ t ∧ t ≤ now - window))).length : Int) ≤
        limit) ∧
    (SlidingAllow st now window limit).remaining =
      max (limit -
        ((st.filter (fun t => ¬(0 ≤ t ∧ t ≤ now - window))).length : Int))
        0) ∧
    ((SlidingAllow [] 100 60 2).allowed = true ∧
    (SlidingAllow (SlidingAllow [] 100 60 2).entries 100 60 2).allowed =
      true ∧
    (SlidingAllow (SlidingAllow
        (SlidingAllow [] 100 60 2).entries 100 60 2).entries
      100 60 2).allowed = true ∧
    (SlidingAllow (SlidingAllow (SlidingAllow (SlidingAllow [] 100 60
        2).entries 100 60 2).entries 100 60 2).entries
      100 60 2).allowed = false) := by
  refine ⟨⟨rfl, ?_, ?_⟩, by decide⟩
  · unfold SlidingAllow
    simp
  · unfold SlidingAllow
    dsimp only
    split_ifs <;> omega

/-! ## Claims about the provider manager -/

/-- Whether a worker errors depends only on its own fetch and lookup
outcomes, never on the shared table. -/
theorem fetchFromProvider_errored_eq (db : DB) (p : ProviderRun) :
    (fetchFromProvider db p).errored =
      (p.fetchResult.isNone || p.providerRowID.isNone) := by
  cases hf : p.fetchResult <;> cases hr : p.providerRowID <;>
    simp [fetchFromProvider, hf, hr]

/-- `last_fetched_at` is updated exactly when the worker did not error. -/
theorem fetchFromProvider_lastFetched_eq (db : DB) (p : ProviderRun) :
    (fetchFromProvider db p).lastFetchedUpdated =
      !(fetchFromProvider db p).errored := by
  cases hf : p.fetchResult <;> cases hr : p.providerRowID <;>
    simp [fetchFromProvider, hf, hr]

/-- Claim C5: `FetchAll` attempts every registered provider exactly once
per call (one effect per provider, positionally aligned) regardless of
other providers' failures, and returns an error exactly when at least one
provider's own cycle failed (fetch error or missing provider row); a
provider's `last_fetched_at` is updated exactly when its own cycle
succeeded — individual item upsert failures are skipped inside the cycle
and never block the update or fail the provider. -/
theorem fetch_all_best_effort (db : DB) (ps : List ProviderRun) :
    ((FetchAll db ps).2.2).length = ps.length ∧
    ((FetchAll db ps).1 = true ↔
      ∃ p ∈ ps, p.fetchResult = none ∨ p.providerRowID = none) ∧
    (∀ pr ∈ ((FetchAll db ps).2.2).zip ps,
      (pr.1.errored = true ↔
        (pr.2.fetchResult = none ∨ pr.2.providerRowID = none)) ∧
      (pr.1.lastFetchedUpdated = true ↔ pr.1.errored = false)) := by
  induction ps generalizing db with
  | nil => simp [FetchAll]
  | cons p rest ih =>
    obtain ⟨ihlen, ihiff, ihzip⟩ := ih (fetchFromProvider db p).db
    have herr : (fetchFromProvider db p).errored = true ↔
        (p.fetchResult = none ∨ p.providerRowID = none) := by
      rw [fetchFromProvider_errored_eq]
      cases hf : p.fetchResult <;> cases hr : p.providerRowID <;> simp
    refine ⟨by simp [FetchAll, ihlen], ?_, ?_⟩
    · simp only [FetchAll, Bool.or_eq_true]
      constructor
      · rintro (h | h)
        · exact ⟨p, List.mem_cons_self p rest, herr.mp h⟩
        · obtain ⟨q, hq, hq2⟩ := ihiff.mp h
          exact ⟨q, List.mem_cons_of_mem p hq, hq2⟩
      · rintro ⟨q, hq, hq2⟩
        rcases List.mem_cons.mp hq with rfl | hq
        · exact Or.inl (herr.mpr hq2)
        · exact Or.inr (ihiff.mpr ⟨q, hq, hq2⟩)
    · intro pr hpr
      simp only [FetchAll, List.zip_cons_cons] at hpr
      rcases List.mem_cons.mp hpr with rfl | hpr
      · refine ⟨herr, ?_⟩
        rw [fetchFromProvider_lastFetched_eq]
        cases he : (fetchFromProvider db p).errored <;> simp
      · exact ihzip pr hpr

/-- Witness for C5: a registry with a failing provider, a provider with a
rejected item, and a clean provider.  The aggregate call errors, all three
providers are attempted, the partially-failing provider still gets its
`last_fetched_at` update (its rejected item is simply not stored), and the
failing provider does not. -/
theorem fetch_all_best_effort_witness :
    (FetchAll [] demoProviders).1 = true ∧
    (FetchAll [] demoProviders).2.2.length = demoProviders.length ∧
    (fetchFromProvider [] demoPartial).lastFetchedUpdated = true ∧
    (fetchFromProvider [] demoFailing).errored = true ∧
    (fetchFromProvider [] demoFailing).lastFetchedUpdated = false ∧
    (fetchFromProvider [] demoPartial).db.length = 1 := by
  have h := fetch_all_best_effort [] demoProviders
  refine ⟨h.2.1.mpr ⟨demoFailing, by decide, Or.inl rfl⟩, h.1, ?_, ?_,
    by decide, by decide⟩
  · exact ((h.2.2 (fetchFromProvider [] demoPartial, demoPartial)
      (by decide)).2).mpr (by decide)
  · exact ((h.2.2 (fetchFromProvider [] demoFailing, demoFailing)
      (by decide)).1).mpr (Or.inl rfl)

/-! ## Claims about ingestion persistence -/

/-- Claim C2: upserting two valid rows with the same
`(provider_id, external_id)` natural key into a table not yet holding that
key leaves exactly one row under the key: the first upsert inserts it with
the fresh auto-increment id, the second updates that row in place keeping
the id, and the stored row carries the second upsert's metrics; a
subsequent scoring pass (`CalculateScoreForContent`, as the sync path runs
after ingestion) stores the recomputed `CalculateFinalScore` for it. -/
theorem upsert_keyed_single_row (db : DB) (c1 c2 : Content) (now : Int)
    (hfree : ∀ r ∈ db, keyMatches c1.providerID c1.externalID r = false)
    (hkp : c2.providerID = c1.providerID)
    (hke : c2.externalID = c1.externalID)
    (hv1 : ValidateContent c1 = none)
    (hv2 : ValidateContent c2 = none) :
    ∃ db1 db2,
      Upsert db c1 = .ok db1 ∧
      Upsert db1 c2 = .ok db2 ∧
      db1.length = db.length + 1 ∧
      db2.length = db1.length ∧
      ∃ r2,
        db2.filter (keyMatches c1.providerID c1.externalID) = [r2] ∧
        r2.id = nextId db ∧
        r2.title = c2.title ∧ r2.type = c2.type ∧
        r2.views = c2.views ∧ r2.likes = c2.likes ∧
        r2.durationSeconds = c2.durationSeconds ∧
        r2.readingTime = c2.readingTime ∧ r2.reactions = c2.reactions ∧
        r2.comments = c2.comments ∧ r2.publishedAt = c2.publishedAt ∧
        r2.score = c2.score ∧
        ∃ db3, CalculateScoreForContent db2 r2.id now = .ok db3 ∧
          db3.filter (keyMatches c1.providerID c1.externalID) =
            [{ r2 with score := CalculateFinalScore now r2 }] := by
  have hfind1 : GetByProviderAndExternalID db c1.providerID c1.externalID = none := by
    unfold GetByProviderAndExternalID
    rw [List.find?_eq_none]
    intro x hx
    simp [hfree x hx]
  have hup1 : Upsert db c1 = .ok (db ++ [{ c1 with id := nextId db }]) := by
    unfold Upsert
    rw [hfind1, Create_ok db c1 hv1]
  have hkeyr1 : keyMatches c1.providerID c1.externalID { c1 with id := nextId db } = true := by
    simp [keyMatches]
  have hfind2 : GetByProviderAndExternalID (db ++ [{ c1 with id := nextId db }])
      c1.providerID c1.externalID = some { c1 with id := nextId db } := by
    unfold GetByProviderAndExternalID
    rw [find?_append_of_none _ _ _ hfree, List.find?_cons_of_pos _ hkeyr1]
  have hvalid2 : ValidateContent { c2 with id := nextId db } = none := hv2
  have hmapdb : ∀ r ∈ db, (if r.id == ({ c2 with id := nextId db } : Content).id then
      { ({ c2 with id := nextId db } : Content) with id := r.id, createdAt := r.createdAt }
      else r) = r := by
    intro r hr
    have hlt := mem_id_lt_nextId db r hr
    have hne : (r.id == ({ c2 with id := nextId db } : Content).id) = false := by
      simp
      omega
    rw [hne]
    simp
  have hup2a : Upsert (db ++ [{ c1 with id := nextId db }]) c2 =
      Update (db ++ [{ c1 with id := nextId db }]) { c2 with id := nextId db } := by
    unfold Upsert
    rw [hkp, hke, hfind2]
  have hup2 : Upsert (db ++ [{ c1 with id := nextId db }]) c2 =
      .ok (db ++ [{ c2 with id := nextId db, createdAt := c1.createdAt }]) := by
    rw [hup2a, Update_ok _ _ hvalid2, List.map_append,
      map_id_of_unchanged _ _ hmapdb]
    simp
  refine ⟨_, _, hup1, hup2, by simp, by simp, ?_⟩
  refine ⟨{ c2 with id := nextId db, createdAt := c1.createdAt }, ?_, rfl,
    rfl, rfl, rfl, rfl, rfl, rfl, rfl, rfl, rfl, rfl, ?_⟩
  · rw [List.filter_append, (List.filter_eq_nil_iff).mpr ?_]
    · simp [keyMatches, hkp, hke]
    · intro a ha
      simp [hfree a ha]
  · have hfindid : (db ++ [{ c2 with id := nextId db, createdAt := c1.createdAt }]).find?
        (fun r => r.id == ({ c2 with id := nextId db, createdAt := c1.createdAt } : Content).id) =
        some { c2 with id := nextId db, createdAt := c1.createdAt } := by
      rw [find?_append_of_none _ _ _ ?_, List.find?_cons_of_pos _ (by simp)]
      intro x hx
      have := mem_id_lt_nextId db x hx
      simp
      omega
    have hcalc : CalculateScoreForContent
        (db ++ [{ c2 with id := nextId db, createdAt := c1.createdAt }])
        ({ c2 with id := nextId db, createdAt := c1.createdAt } : Content).id now =
        .ok (UpdateScore
          (db ++ [{ c2 with id := nextId db, createdAt := c1.createdAt }])
          ({ c2 with id := nextId db, createdAt := c1.createdAt } : Content).id
          (CalculateFinalScore now
            { c2 with id := nextId db, createdAt := c1.createdAt })) := by
      unfold CalculateScoreForContent
      rw [hfindid]
    refine ⟨_, hcalc, ?_⟩
    unfold UpdateScore
    rw [List.map_append, map_id_of_unchanged _ _ ?_]
    · rw [List.filter_append, (List.filter_eq_nil_iff).mpr ?_]
      · simp [keyMatches, hkp, hke]
      · intro a ha
        simp [hfree a ha]
    · intro r hr
      have := mem_id_lt_nextId db r hr
      have hne2 : (r.id == ({ c2 with id := nextId db, createdAt := c1.createdAt } : Content).id) = false := by
        simp
        omega
      rw [hne2]
      simp

/-- Witness for C2: the scenario video upserted twice into an empty table
with bumped metrics the second time. -/
theorem upsert_keyed_single_row_witness :
    ∃ db1 db2,
      Upsert [] (sampleVideo 0) = .ok db1 ∧
      Upsert db1 sampleVideoRefetched = .ok db2 ∧
      db1.length = ([] : DB).length + 1 ∧
      db2.length = db1.length ∧
      ∃ r2,
        db2.filter (keyMatches (sampleVideo 0).providerID
          (sampleVideo 0).externalID) = [r2] ∧
        r2.id = nextId [] ∧
        r2.title = sampleVideoRefetched.title ∧
        r2.type = sampleVideoRefetched.type ∧
        r2.views = sampleVideoRefetched.views ∧
        r2.likes = sampleVideoRefetched.likes ∧
        r2.durationSeconds = sampleVideoRefetched.durationSeconds ∧
        r2.readingTime = sampleVideoRefetched.readingTime ∧
        r2.reactions = sampleVideoRefetched.reactions ∧
        r2.comments = sampleVideoRefetched.comments ∧
        r2.publishedAt = sampleVideoRefetched.publishedAt ∧
        r2.score = sampleVideoRefetched.score ∧
        ∃ db3, CalculateScoreForContent db2 r2.id 0 = .ok db3 ∧
          db3.filter (keyMatches (sampleVideo 0).providerID
            (sampleVideo 0).externalID) =
            [{ r2 with score := CalculateFinalScore 0 r2 }] :=
  upsert_keyed_single_row [] (sampleVideo 0) sampleVideoRefetched 0
    (by simp) rfl rfl (by decide) (by decide)

/-! ## Claims about the search path -/

/-- Step 1 leaves the sort and paging fields other than page alone. -/
theorem vPage_fields (r : SearchRequest) :
    (vPage r).sortBy = r.sortBy ∧ (vPage r).sortOrder = r.sortOrder ∧
    (vPage r).perPage = r.perPage := by
  unfold vPage; split <;> exact ⟨rfl, rfl, rfl⟩
/-- Step 2 leaves the sort fields alone. -/
theorem vPerPageMin_fields (r : SearchRequest) :
    (vPerPageMin r).sortBy = r.sortBy ∧
    (vPerPageMin r).sortOrder = r.sortOrder := by
  unfold vPerPageMin; split <;> exact ⟨rfl, rfl⟩
/-- Step 3 leaves the sort fields alone. -/
theorem vPerPageMax_fields (r : SearchRequest) :
    (vPerPageMax r).sortBy = r.sortBy ∧
    (vPerPageMax r).sortOrder = r.sortOrder := by
  unfold vPerPageMax; split <;> exact ⟨rfl, rfl⟩
/-- Step 4 leaves sort order and per_page alone. -/
theorem vSortByDefault_fields (r : SearchRequest) :
    (vSortByDefault r).sortOrder = r.sortOrder ∧
    (vSortByDefault r).perPage = r.perPage := by
  unfold vSortByDefault; split <;> exact ⟨rfl, rfl⟩
/-- Step 5 leaves sort order and per_page alone. -/
theorem vSortByWhitelist_fields (r : SearchRequest) :
    (vSortByWhitelist r).sortOrder = r.sortOrder ∧
    (vSortByWhitelist r).perPage = r.perPage := by
  unfold vSortByWhitelist; split <;> exact ⟨rfl, rfl⟩
/-- Step 6 leaves sort field and per_page alone. -/
theorem vSortOrderDefault_fields (r : SearchRequest) :
    (vSortOrderDefault r).sortBy = r.sortBy ∧
    (vSortOrderDefault r).perPage = r.perPage := by
  unfold vSortOrderDefault; split <;> exact ⟨rfl, rfl⟩
/-- Step 7 leaves sort field and per_page alone. -/
theorem vSortOrderWhitelist_fields (r : SearchRequest) :
    (vSortOrderWhitelist r).sortBy = r.sortBy ∧
    (vSortOrderWhitelist r).perPage = r.perPage := by
  unfold vSortOrderWhitelist; split <;> exact ⟨rfl, rfl⟩
/-- Step 8 leaves everything but the dates alone. -/
theorem vDates_fields (r : SearchRequest) :
    (vDates r).sortBy = r.sortBy ∧ (vDates r).sortOrder = r.sortOrder ∧
    (vDates r).perPage = r.perPage ∧ (vDates r).page = r.page := by
  unfold vDates
  rcases r.startDate with _ | s <;> rcases r.endDate with _ | e <;>
    first
      | exact ⟨rfl, rfl, rfl, rfl⟩
      | (dsimp only; split <;> exact ⟨rfl, rfl, rfl, rfl⟩)

/-- The paging steps leave the sort field alone. -/
theorem chain_sortBy (r : SearchRequest) :
    (vPerPageMax (vPerPageMin (vPage r))).sortBy = r.sortBy := by
  rw [(vPerPageMax_fields _).1, (vPerPageMin_fields _).1, (vPage_fields _).1]

/-- The sort field after its defaulting step. -/
theorem vSortByDefault_sortBy (r : SearchRequest) :
    (vSortByDefault (vPerPageMax (vPerPageMin (vPage r)))).sortBy =
      if r.sortBy = "" then "score" else r.sortBy := by
  unfold vSortByDefault
  rw [apply_ite SearchRequest.sortBy]
  dsimp only
  rw [chain_sortBy]

/-- The validated sort field: the whitelisted value, else score. -/
theorem validate_sortBy (r : SearchRequest) :
    r.Validate.sortBy =
      if r.sortBy = "score" ∨ r.sortBy = "published_at" ∨ r.sortBy = "title"
      then r.sortBy else "score" := by
  unfold SearchRequest.Validate
  rw [(vDates_fields _).1, (vSortOrderWhitelist_fields _).1,
    (vSortOrderDefault_fields _).1]
  unfold vSortByWhitelist
  rw [apply_ite SearchRequest.sortBy]
  dsimp only
  rw [vSortByDefault_sortBy]
  by_cases he : r.sortBy = "" <;> split_ifs <;> simp_all


/-- Swapping a three-way comparison flips its arguments. -/
theorem cmp3_swap {α : Type} [LinearOrder α] (a b : α) :
    (cmp3 a b).swap = cmp3 b a := by
  unfold cmp3
  rcases lt_trichotomy a b with h | h | h
  · simp [h, not_lt_of_gt h, Ordering.swap]
  · simp [h, lt_irrefl, Ordering.swap]
  · simp [h, not_lt_of_gt h, Ordering.swap]

/-- `cmp3` answers `lt` exactly on smaller-than. -/
theorem cmp3_eq_lt {α : Type} [LinearOrder α] {a b : α} :
    cmp3 a b = .lt ↔ a < b := by
  unfold cmp3
  split_ifs with h1 h2
  · simp [h1]
  · simp [h1]
  · simp [h1]

/-- `cmp3` answers `eq` exactly on equality. -/
theorem cmp3_eq_eq {α : Type} [LinearOrder α] {a b : α} :
    cmp3 a b = .eq ↔ a = b := by
  unfold cmp3
  split_ifs with h1 h2
  · simp [ne_of_lt h1]
  · simp [ne_of_gt h2]
  · simp [le_antisymm (not_lt.mp h2) (not_lt.mp h1)]

/-- `cmp3` answers `gt` exactly on greater-than. -/
theorem cmp3_eq_gt {α : Type} [LinearOrder α] {a b : α} :
    cmp3 a b = .gt ↔ b < a := by
  unfold cmp3
  split_ifs with h1 h2
  · simp [lt_asymm h1]
  · simp [h2]
  · simp [h2]

/-- `rowLe` is `keyLe` at the projection the field names. -/
theorem rowLe_eq_keyLe (field dir : String) (a b : Content) :
    rowLe field dir a b =
      if field = "published_at" then keyLe (fun c => c.publishedAt) dir a b
      else if field = "title" then keyLe (fun c => c.title) dir a b
      else if field = "id" then keyLe (fun c => c.id) dir a b
      else keyLe (fun c => c.score) dir a b := by
  unfold rowLe cmpField keyLe
  split_ifs <;> rfl

/-- Propositional reading of the comparator: strictly better primary
key in the requested direction, or equal keys and id tie-break. -/
theorem keyLe_iff {α : Type} [LinearOrder α] (k : Content → α) (dir : String)
    (a b : Content) :
    keyLe k dir a b = true ↔
      ((if dir = "DESC" then k b < k a else k a < k b) ∨
        (k a = k b ∧ b.id ≤ a.id)) := by
  unfold keyLe
  by_cases hd : dir = "DESC" <;>
    rcases h : cmp3 (k a) (k b) with _ | _ | _ <;>
      simp only [hd, if_true, if_false, h, Ordering.swap, decide_eq_true_eq]
  · have := cmp3_eq_lt.mp h
    simp [not_lt_of_gt this, ne_of_lt this]
  · have := cmp3_eq_eq.mp h
    simp [this]
  · have := cmp3_eq_gt.mp h
    simp [this, ne_of_gt this]
  · have := cmp3_eq_lt.mp h
    simp [this, ne_of_lt this]
  · have := cmp3_eq_eq.mp h
    simp [this]
  · have := cmp3_eq_gt.mp h
    simp [not_lt_of_gt this, ne_of_gt this]

/-- The comparator is transitive. -/
theorem keyLe_trans {α : Type} [LinearOrder α] (k : Content → α)
    (dir : String) (a b c : Content) (hab : keyLe k dir a b = true)
    (hbc : keyLe k dir b c = true) : keyLe k dir a c = true := by
  rw [keyLe_iff] at hab hbc ⊢
  by_cases hd : dir = "DESC" <;> simp only [hd, if_true, if_false] at hab hbc ⊢
  · rcases hab with h1 | ⟨h1, h1i⟩ <;> rcases hbc with h2 | ⟨h2, h2i⟩
    · exact Or.inl (lt_trans h2 h1)
    · exact Or.inl (h2 ▸ h1)
    · exact Or.inl (h1 ▸ h2)
    · exact Or.inr ⟨h1.trans h2 ▸ rfl, le_trans h2i h1i⟩
  · rcases hab with h1 | ⟨h1, h1i⟩ <;> rcases hbc with h2 | ⟨h2, h2i⟩
    · exact Or.inl (lt_trans h1 h2)
    · exact Or.inl (h2 ▸ h1)
    · exact Or.inl (h1 ▸ h2)
    · exact Or.inr ⟨h1.trans h2, le_trans h2i h1i⟩

/-- The comparator is total. -/
theorem keyLe_total {α : Type} [LinearOrder α] (k : Content → α)
    (dir : String) (a b : Content) :
    (keyLe k dir a b || keyLe k dir b a) = true := by
  rw [Bool.or_eq_true, keyLe_iff, keyLe_iff]
  by_cases hd : dir = "DESC" <;> simp only [hd, if_true, if_false] <;>
    rcases lt_trichotomy (k a) (k b) with h | h | h
  · exact Or.inr (Or.inl h)
  · rcases Int.le_total a.id b.id with hi | hi
    · exact Or.inr (Or.inr ⟨h.symm, hi⟩)
    · exact Or.inl (Or.inr ⟨h, hi⟩)
  · exact Or.inl (Or.inl h)
  · exact Or.inl (Or.inl h)
  · rcases Int.le_total a.id b.id with hi | hi
    · exact Or.inr (Or.inr ⟨h.symm, hi⟩)
    · exact Or.inl (Or.inr ⟨h, hi⟩)
  · exact Or.inr (Or.inl h)

/-- The row ordering used by the search query is transitive. -/
theorem rowLe_trans (field dir : String) (a b c : Content)
    (hab : rowLe field dir a b = true) (hbc : rowLe field dir b c = true) :
    rowLe field dir a c = true := by
  rw [rowLe_eq_keyLe] at hab hbc ⊢
  split_ifs at hab hbc ⊢ <;> exact keyLe_trans _ _ _ _ _ hab hbc

/-- The row ordering used by the search query is total. -/
theorem rowLe_total (field dir : String) (a b : Content) :
    (rowLe field dir a b || rowLe field dir b a) = true := by
  rw [rowLe_eq_keyLe, rowLe_eq_keyLe]
  split_ifs <;> exact keyLe_total _ _ _ _


/-- Go's `(t + p - 1) / p` is the ceiling of `t / p` for nonnegative
`t` and positive `p`. -/
theorem tdiv_ceil (t p : Int) (ht : 0 ≤ t) (hp : 0 < p) :
    (t + p - 1).tdiv p = ⌈(t : ℚ) / (p : ℚ)⌉ := by
  have hnn : 0 ≤ t + p - 1 := by omega
  have htd : (t + p - 1).tdiv p = (t + p - 1) / p :=
    Int.tdiv_eq_ediv hnn (by omega)
  have h1 : p * ((t + p - 1) / p) + (t + p - 1) % p = t + p - 1 :=
    Int.ediv_add_emod _ _
  have h2 : 0 ≤ (t + p - 1) % p := Int.emod_nonneg _ (ne_of_gt hp)
  have h3 : (t + p - 1) % p < p := Int.emod_lt_of_pos _ hp
  have hub : t ≤ ((t + p - 1) / p) * p := by
    have hcomm : ((t + p - 1) / p) * p = p * ((t + p - 1) / p) := mul_comm _ _
    linarith
  have hlb : ((t + p - 1) / p - 1) * p < t := by
    have hexp : ((t + p - 1) / p - 1) * p = p * ((t + p - 1) / p) - p := by ring
    linarith
  rw [htd]
  have hple : ⌈(t : ℚ) / (p : ℚ)⌉ ≤ (t + p - 1) / p := by
    apply Int.ceil_le.mpr
    rw [div_le_iff₀ (by exact_mod_cast hp)]
    exact_mod_cast hub
  have hpge : (t + p - 1) / p - 1 < ⌈(t : ℚ) / (p : ℚ)⌉ := by
    apply Int.lt_ceil.mpr
    rw [lt_div_iff₀ (by exact_mod_cast hp)]
    push_cast
    exact_mod_cast hlb
  omega


/-- The earlier steps leave the sort order alone. -/
theorem chain_sortOrder (r : SearchRequest) :
    (vSortByWhitelist (vSortByDefault (vPerPageMax (vPerPageMin
      (vPage r))))).sortOrder = r.sortOrder := by
  rw [(vSortByWhitelist_fields _).1, (vSortByDefault_fields _).1,
    (vPerPageMax_fields _).2, (vPerPageMin_fields _).2, (vPage_fields _).2.1]

/-- The sort order after its defaulting step. -/
theorem vSortOrderDefault_sortOrder (r : SearchRequest) :
    (vSortOrderDefault (vSortByWhitelist (vSortByDefault (vPerPageMax
      (vPerPageMin (vPage r)))))).sortOrder =
      if r.sortOrder = "" then "desc" else r.sortOrder := by
  unfold vSortOrderDefault
  rw [apply_ite SearchRequest.sortOrder]
  dsimp only
  rw [chain_sortOrder]

/-- The validated sort order: asc or desc, else desc. -/
theorem validate_sortOrder (r : SearchRequest) :
    r.Validate.sortOrder =
      if r.sortOrder = "asc" ∨ r.sortOrder = "desc"
      then r.sortOrder else "desc" := by
  unfold SearchRequest.Validate
  rw [(vDates_fields _).2.1]
  unfold vSortOrderWhitelist
  rw [apply_ite SearchRequest.sortOrder]
  dsimp only
  rw [vSortOrderDefault_sortOrder]
  by_cases he : r.sortOrder = "" <;> split_ifs <;> simp_all

/-- The sort steps leave per_page alone. -/
theorem chain_perPage (r : SearchRequest) :
    (vSortOrderWhitelist (vSortOrderDefault (vSortByWhitelist
      (vSortByDefault (vPerPageMax (vPerPageMin (vPage r))))))).perPage =
      (vPerPageMax (vPerPageMin (vPage r))).perPage := by
  rw [(vSortOrderWhitelist_fields _).2, (vSortOrderDefault_fields _).2,
    (vSortByWhitelist_fields _).2, (vSortByDefault_fields _).2]

/-- The validated page size lies in [1, 100]. -/
theorem validate_perPage (r : SearchRequest) :
    1 ≤ r.Validate.perPage ∧ r.Validate.perPage ≤ 100 := by
  unfold SearchRequest.Validate
  rw [(vDates_fields _).2.2.1, chain_perPage]
  unfold vPerPageMax vPerPageMin
  rw [apply_ite SearchRequest.perPage]
  dsimp only
  rw [apply_ite SearchRequest.perPage]
  dsimp only
  split_ifs <;> omega

/-- Field-level reading of `CalculateTotalPages`. -/
theorem calcTP_fields (r : SearchResponse) :
    r.CalculateTotalPages.results = r.results ∧
    r.CalculateTotalPages.total = r.total ∧
    r.CalculateTotalPages.page = r.page ∧
    r.CalculateTotalPages.perPage = r.perPage ∧
    r.CalculateTotalPages.totalPages =
      (if r.total < 0 then 0
       else if r.perPage > 0 then (r.total + r.perPage - 1).tdiv r.perPage
       else 0) := by
  unfold SearchResponse.CalculateTotalPages
  split_ifs <;> exact ⟨rfl, rfl, rfl, rfl, rfl⟩


/-- Field-level reading of the repository `Search` model. -/
theorem Search_fields (tmatch : String → String → Bool) (db : DB)
    (req : SearchRequest) (ct : Bool) :
    (Search tmatch db req ct).total =
      (if ct then -1
       else ((db.filter (matchesWhere tmatch req)).length : Int)) ∧
    (Search tmatch db req ct).results =
      (((db.filter (matchesWhere tmatch req)).mergeSort
        (rowLe (searchSortBy req) (searchSortOrder req))).drop
          req.GetOffset.toNat).take req.perPage.toNat := by
  unfold Search
  exact ⟨rfl, rfl⟩

/-- Field-level reading of the service search path. -/
theorem ServiceSearch_fields (tmatch : String → String → Bool) (db : DB)
    (req : SearchRequest) (ct : Bool) :
    (ServiceSearch tmatch db req ct).results =
      (Search tmatch db req.Validate ct).results ∧
    (ServiceSearch tmatch db req ct).total =
      (Search tmatch db req.Validate ct).total ∧
    (ServiceSearch tmatch db req ct).perPage = req.Validate.perPage ∧
    (ServiceSearch tmatch db req ct).totalPages =
      (if (Search tmatch db req.Validate ct).total < 0 then 0
       else if req.Validate.perPage > 0 then
         ((Search tmatch db req.Validate ct).total +
           req.Validate.perPage - 1).tdiv req.Validate.perPage
       else 0) := by
  unfold ServiceSearch
  refine ⟨?_, ?_, ?_, ?_⟩
  · rw [(calcTP_fields _).1]
  · rw [(calcTP_fields _).2.1]
  · rw [(calcTP_fields _).2.2.2.1]
  · rw [(calcTP_fields _).2.2.2.2]

/-- Claim C3: when the `COUNT` sub-query times out while the main page
query succeeds, the response carries the sentinel total -1 and
`total_pages` 0, while the page of results is exactly what the
non-timed-out run returns and is ordered by the requested sort; when the
count succeeds, `total_pages` is the ceiling of total over per_page. -/
theorem search_count_timeout_degrades (tmatch : String → String → Bool)
    (db : DB) (req : SearchRequest) :
    (ServiceSearch tmatch db req true).total = -1 ∧
    (ServiceSearch tmatch db req true).totalPages = 0 ∧
    (ServiceSearch tmatch db req true).results =
      (ServiceSearch tmatch db req false).results ∧
    List.Pairwise (fun a b =>
      rowLe (searchSortBy req.Validate) (searchSortOrder req.Validate) a b =
        true) (ServiceSearch tmatch db req true).results ∧
    0 ≤ (ServiceSearch tmatch db req false).total ∧
    (ServiceSearch tmatch db req false).totalPages =
      ⌈((ServiceSearch tmatch db req false).total : ℚ) /
        ((ServiceSearch tmatch db req false).perPage : ℚ)⌉ := by
  have htotal : (ServiceSearch tmatch db req true).total = -1 := by
    rw [(ServiceSearch_fields tmatch db req true).2.1,
      (Search_fields tmatch db req.Validate true).1]
    simp
  have hftotal : (ServiceSearch tmatch db req false).total =
      ((db.filter (matchesWhere tmatch req.Validate)).length : Int) := by
    rw [(ServiceSearch_fields tmatch db req false).2.1,
      (Search_fields tmatch db req.Validate false).1]
    simp
  have hpp := validate_perPage req
  refine ⟨htotal, ?_, ?_, ?_, ?_, ?_⟩
  · rw [(ServiceSearch_fields tmatch db req true).2.2.2]
    rw [if_pos ?_]
    rw [(Search_fields tmatch db req.Validate true).1]
    simp
  · rw [(ServiceSearch_fields tmatch db req true).1,
      (ServiceSearch_fields tmatch db req false).1,
      (Search_fields tmatch db req.Validate true).2,
      (Search_fields tmatch db req.Validate false).2]
  · rw [(ServiceSearch_fields tmatch db req true).1,
      (Search_fields tmatch db req.Validate true).2]
    have hsorted := List.sorted_mergeSort
      (rowLe_trans (searchSortBy req.Validate) (searchSortOrder req.Validate))
      (rowLe_total (searchSortBy req.Validate) (searchSortOrder req.Validate))
      (db.filter (matchesWhere tmatch req.Validate))
    exact hsorted.sublist ((List.take_sublist _ _).trans
      (List.drop_sublist _ _))
  · rw [hftotal]
    exact Int.natCast_nonneg _
  · rw [(ServiceSearch_fields tmatch db req false).2.2.2,
      (ServiceSearch_fields tmatch db req false).2.1,
      (ServiceSearch_fields tmatch db req false).2.2.1,
      (Search_fields tmatch db req.Validate false).1]
    simp only [if_false, Bool.false_eq_true]
    rw [if_neg (by simp), if_pos (by omega)]
    exact tdiv_ceil _ _ (Int.natCast_nonneg _) (by omega)


/-- Claim C4 (counterexample): a request with sort field `id` does not
get `id` as the ORDER BY field on the search path: `Validate`'s whitelist
(score, published_at, title) rewrites it to score before the repository —
whose own whitelist would have accepted `id` — ever sees it. -/
theorem sort_by_id_falls_back_to_score :
    orderByClause reqSortById.Validate = "ORDER BY score DESC, id DESC" ∧
    orderByClause reqSortById.Validate ≠ "ORDER BY id DESC, id DESC" ∧
    searchSortBy reqSortById = "id" := by
  decide

/-- Claim C4 (amended): on the search path a requested sort field in
{score, published_at, title} is used as the ORDER BY field and any other
value — `id` included, which only the repository-level whitelist would
accept but request validation rewrites first — falls back to score;
direction `asc`/`desc` is honored (uppercased) and any other value falls
back to DESC; and the ORDER BY clause is always suffixed with the
tie-break `, id DESC`. -/
theorem search_path_order_by (req : SearchRequest) :
    orderByClause req.Validate =
      "ORDER BY " ++
        (if req.sortBy = "score" ∨ req.sortBy = "published_at" ∨
            req.sortBy = "title"
         then req.sortBy else "score") ++ " " ++
        (if req.sortOrder = "asc" then "ASC" else "DESC") ++ ", id DESC" := by
  unfold orderByClause searchSortBy searchSortOrder
  rw [validate_sortBy, validate_sortOrder]
  by_cases h1 : req.sortBy = "score" <;>
    by_cases h2 : req.sortBy = "published_at" <;>
      by_cases h3 : req.sortBy = "title" <;>
        by_cases h4 : req.sortOrder = "asc" <;>
          by_cases h5 : req.sortOrder = "desc" <;>
            simp only [h1, h2, h3, h4, h5, if_true, if_false] <;>
              first
                | decide
                | (simp [h1, h2, h3, h4, h5]; decide)

end SearchEngine
